import Mathlib

/-!
Verification development for `invoice_generator.py` (tulip-invoice).

The definitions below are a shallow embedding of the invoicing core:
invoice-number generation (source lines 284-297), line-item calculation
(lines 316-332, 424-428), ledger row assembly and padding (lines 456-479,
246-257), header maintenance on append (lines 206-237), and the
cancel/restore status mutation (lines 503-520).  Strings are `String`,
Python ints/floats are modelled as `ℚ`, and the fallible numbering
computation (which can raise `ValueError` from `int(NaN)`) returns
`Except Unit _`.
-/

/-- ASCII/latin whitespace as stripped by Python's `str.strip()`
(space, tab, newline, carriage return, vertical tab, form feed). -/
def pyIsSpace (c : Char) : Bool :=
  c = ' ' || c = '\t' || c = '\n' || c = '\x0d' || c = '\x0b' || c = '\x0c'

/-- Python `str.strip()`: remove leading and trailing whitespace. -/
def pyStrip (s : String) : String :=
  ⟨((s.data.dropWhile pyIsSpace).reverse.dropWhile pyIsSpace).reverse⟩

/-- Value of a run of decimal digits (`int("0099") = 99`). -/
def digitsToNat (ds : List Char) : Nat :=
  ds.foldl (fun a c => a * 10 + (c.toNat - '0'.toNat)) 0

/-- If `pat` is a literal prefix of `s`, return the remaining characters. -/
def dropLit : List Char → List Char → Option (List Char)
  | [], s => some s
  | _ :: _, [] => none
  | p :: ps, c :: cs => if p = c then dropLit ps cs else none

/-- Leftmost-match search for the regex `pat(\d+)` where `pat` is literal
text: at each position, if `pat` matches and is followed by at least one
decimal digit, return the value of the maximal digit run (the greedy
capture); otherwise continue at the next position.  This is the semantics
of `re.search` as used by `pandas.Series.str.extract` at source line 291. -/
def searchInv (pat : List Char) : List Char → Option Nat
  | [] => none
  | c :: cs =>
    match dropLit pat (c :: cs) with
    | some rest =>
      let ds := rest.takeWhile Char.isDigit
      if ds.isEmpty then searchInv pat cs else some (digitsToNat ds)
    | none => searchInv pat cs

/-- `str.extract(rf"{counter}_INV(\d+)")` applied to one row value:
the captured numeric suffix of the first match, if any (source line 291). -/
def extractSuffix (counter : String) (row : String) : Option Nat :=
  searchInv (counter.data ++ "_INV".data) row.data

/-- Python `row.startswith(pre)` (source line 288). -/
def pyStartsWith (row pre : String) : Bool :=
  (dropLit pre.data row.data).isSome

/-- Python `f"{n:02d}"`: decimal rendering zero-padded to at least 2 digits. -/
def padTwo (n : Nat) : String :=
  if n < 10 then "0" ++ toString n else toString n

/-- Source lines 284-296: the `inv_numeric` computation.  The snapshot is
the `Invoice No` column of the cached sheet dataframe.  `inv_numeric`
starts at 1; when the counter is non-empty and the snapshot is non-empty,
the rows starting with the counter are selected (`str.startswith`), the
numeric suffixes are extracted with `str.extract(rf"{counter}_INV(\d+)")`
and the failures dropped; if the selection was non-empty the maximum of
the parsed suffixes plus one is taken.  When the selection is non-empty
but every extraction fails, `.max()` of the empty series is NaN and
`int(last)` raises `ValueError`: that path is `Except.error ()`. -/
def invNumericE (counter : String) (snapshot : List String) : Except Unit Nat :=
  if counter ≠ "" ∧ snapshot ≠ [] then
    let dfCounter := snapshot.filter (fun r => pyStartsWith r counter)
    if dfCounter ≠ [] then
      match (dfCounter.filterMap (extractSuffix counter)).max? with
      | none => Except.error ()
      | some last => Except.ok (last + 1)
    else Except.ok 1
  else Except.ok 1

/-- Source line 297:
`invoice_no = f"{billing_counter}_INV{inv_numeric:02d}" if billing_counter else ""`,
propagating a `ValueError` from the `inv_numeric` computation. -/
def invoiceNoE (counter : String) (snapshot : List String) : Except Unit String :=
  (invNumericE counter snapshot).map
    (fun n => if counter ≠ "" then counter ++ "_INV" ++ padTwo n else "")

/-- Modelled from the spec's words, for comparison with the code's
`invoiceNoE` (claim C1): filter snapshot rows whose invoice-number field
starts with `"{counter}_INV"`, extract the numeric suffix of each with the
pattern `"{counter}_INV(\d+)"`, take the maximum of the successfully
parsed suffixes (0 when no row matches), and render max + 1 zero-padded
to a minimum of 2 digits. -/
def specNextInvoice (counter : String) (snapshot : List String) : String :=
  let suffixes :=
    (snapshot.filter (fun r => pyStartsWith r (counter ++ "_INV"))).filterMap
      (extractSuffix counter)
  counter ++ "_INV" ++ padTwo (suffixes.foldl max 0 + 1)

/-- One entry of the `items` list built at source lines 318-328: the raw
inputs `item`/`price`/`qty`/`discount_percent` together with the derived
`total` and `final_total` fields. -/
structure Item where
  s_no : String
  item : String
  price : ℚ
  qty : ℤ
  discount_percent : ℚ
  total : ℚ
  final_total : ℚ
deriving DecidableEq

/-- Source lines 316-328: build the dict for item `i` from the raw form
inputs; `total_before_discount = price * qty` and
`total_after_discount = total_before_discount * (1 - discount_item / 100)`. -/
def mkItem (i : Nat) (name : String) (price : ℚ) (qty : ℤ) (discount : ℚ) : Item :=
  let total := price * (qty : ℚ)
  let final := total * (1 - discount / 100)
  { s_no := toString (i + 1), item := name, price := price, qty := qty,
    discount_percent := discount, total := total, final_total := final }

/-- Per-line summand of `discount_amt` at source line 425:
`it["total"] - it["final_total"]`. -/
def lineDiscountValue (it : Item) : ℚ :=
  it.total - it.final_total

/-- Source lines 330 and 426: `subtotal = sum(it["final_total"] for it in items)`. -/
def subtotalAfterDiscount (items : List Item) : ℚ :=
  (items.map Item.final_total).sum

/-- Source lines 331 and 427: `gst_amount = subtotal * (gst_percent / 100.0)`. -/
def gstAmountOf (items : List Item) (gstPercent : ℚ) : ℚ :=
  subtotalAfterDiscount items * (gstPercent / 100)

/-- Source lines 332 and 428: `grand_total_incl_gst = subtotal + gst_amount`. -/
def grandTotalInclGst (items : List Item) (gstPercent : ℚ) : ℚ :=
  subtotalAfterDiscount items + gstAmountOf items gstPercent

/-- A spreadsheet cell: the rows assembled at source lines 456-478 mix
string fields with numeric fields. -/
inductive Cell where
  | s (v : String)
  | n (v : ℚ)
deriving DecidableEq

/-- Source lines 206-225: the 18-column target header of the ledger sheet. -/
def targetHeader : List String :=
  ["Stall No", "Invoice No", "Date", "Phone No", "Payment Method",
   "Artisan Code", "Item", "Qty", "Price", "Total (Item)", "Discount%",
   "Final Total (Item)", "Final Total (Invoice)", "GST%", "GST Amt",
   "Status", "Corporation", "Location"]

/-- Source lines 456-478: one ledger row per line item, carrying the
header fields, the per-item fields, and the invoice-level aggregates
(`grand_total_incl_gst_calc`, `gst_percent`, `gst_amount_calc`), status
`"Active"` and the corporation; the location column is absent (it is
added inside `append_to_google_sheet`). -/
def buildRows (stallNo invoiceNo dateStr phNo paymentMethod artisanCode
    corporation : String) (grandTotal gstPercent gstAmount : ℚ)
    (items : List Item) : List (List Cell) :=
  items.map fun it =>
    [Cell.s stallNo, Cell.s invoiceNo, Cell.s dateStr, Cell.s phNo,
     Cell.s paymentMethod, Cell.s artisanCode, Cell.s it.item,
     Cell.n (it.qty : ℚ), Cell.n it.price, Cell.n it.total,
     Cell.n it.discount_percent, Cell.n it.final_total,
     Cell.n grandTotal, Cell.n gstPercent, Cell.n gstAmount,
     Cell.s "Active", Cell.s corporation]

/-- Source lines 250-254, one iteration bound: the
`while len(full_row) < len(target_header)` loop appends the user location
when the current length equals `target_header.index("Location")` and `""`
otherwise.  `fuel` bounds the iterations; `padRow` supplies enough. -/
def padLoop (location : String) (r : List Cell) : Nat → List Cell
  | 0 => r
  | fuel + 1 =>
    if r.length < targetHeader.length then
      padLoop location
        (r ++ [if r.length = targetHeader.indexOf "Location"
               then Cell.s location else Cell.s ""])
        fuel
    else r

/-- Source lines 247-255 for one row: run the padding loop to completion
(each iteration grows the row by one cell, so `targetHeader.length` units
of fuel always suffice). -/
def padRow (location : String) (r : List Cell) : List Cell :=
  padLoop location r targetHeader.length

/-- Source lines 240-243: the per-user location of the credential config,
`config["credentials"]["usernames"].get(current_user, {}).get("location", "")`.
The config is modelled as an association list from username to the
optional `location` attribute of that user's record. -/
def resolveLocation (cfg : List (String × Option String)) (user : String) : String :=
  match cfg.lookup user with
  | none => ""
  | some loc => loc.getD ""

/-- Source lines 246-255: `rows_with_location`, the caller's rows each
padded with the resolved location. -/
def rowsWithLocation (location : String) (rows : List (List Cell)) :
    List (List Cell) :=
  rows.map (padRow location)

/-- Source lines 228-229: strip each cell of the header row and drop the
blank ones. -/
def normalizeHeader (r : List String) : List String :=
  (r.map pyStrip).filter (fun h => h ≠ "")

/-- Source lines 227-237 and 257, on a sheet modelled as a list of rows:
read row 1 (`[]` when the sheet is empty), normalize it; if nothing is
left, insert the target header as a new row 1; if the normalized header
differs from the target, overwrite the first 18 cells of row 1 with the
target header (a range update leaves cells beyond the written values
untouched); otherwise leave the sheet alone.  Then append the new rows. -/
def ensureHeaderAppend (sheet : List (List String)) (newRows : List (List String)) :
    List (List String) :=
  let currentHeader := normalizeHeader (sheet.headD [])
  let sheet2 :=
    if currentHeader = [] then targetHeader :: sheet
    else if currentHeader ≠ targetHeader then
      match sheet with
      | [] => [targetHeader]
      | r :: rest => (targetHeader ++ r.drop targetHeader.length) :: rest
    else sheet
  sheet2 ++ newRows

/-- Column index of `"Invoice No"` in the ledger dataframe
(`df_all["Invoice No"]` at source lines 508, 517). -/
def invoiceCol : Nat := targetHeader.indexOf "Invoice No"

/-- Column index of `"Status"` (`df_all.columns.get_loc("Status")` at
source lines 509, 518). -/
def statusCol : Nat := targetHeader.indexOf "Status"

/-- Source lines 505-509 (and 514-518 with `"Active"`): fetch all data
rows, and for every row whose `Invoice No` column equals the selected
invoice, update just the Status cell of that row to `newStatus`
(`ws.update_cell(idx + 2, df_all.columns.get_loc("Status") + 1, ...)`). -/
def setStatus (inv newStatus : String) (rows : List (List String)) :
    List (List String) :=
  rows.map fun r => if r.getD invoiceCol "" = inv then r.set statusCol newStatus else r

theorem targetHeader_len : targetHeader.length = 18 := rfl

theorem targetHeader_locIdx : targetHeader.indexOf "Location" = 17 := rfl

theorem invoiceCol_val : invoiceCol = 1 := rfl

theorem statusCol_val : statusCol = 15 := rfl

theorem max?_eq_some_foldl : ∀ (l : List Nat), l ≠ [] → l.max? = some (l.foldl max 0)
  | [], h => absurd rfl h
  | a :: as, _ => by simp [List.max?, List.foldl_cons, Nat.zero_max]

theorem padLoop_of_full (loc : String) :
    ∀ (fuel : Nat) (r : List Cell), targetHeader.length ≤ r.length →
      padLoop loc r fuel = r
  | 0, _, _ => rfl
  | fuel + 1, r, h => by
    simp only [padLoop]
    rw [if_neg (by omega)]

theorem padLoop_closed (loc : String) :
    ∀ (fuel : Nat) (r : List Cell), r.length ≤ 17 → 18 ≤ r.length + fuel →
      padLoop loc r fuel =
        r ++ List.replicate (17 - r.length) (Cell.s "") ++ [Cell.s loc]
  | 0, _, h1, h2 => absurd h1 (by omega)
  | fuel + 1, r, h1, h2 => by
    simp only [padLoop, targetHeader_len, targetHeader_locIdx]
    rw [if_pos (by omega)]
    by_cases hc : r.length = 17
    · rw [if_pos hc, padLoop_of_full loc fuel _ (by simp [targetHeader_len]; omega)]
      rw [hc]
      simp
    · rw [if_neg hc]
      rw [padLoop_closed loc fuel (r ++ [Cell.s ""]) (by simp; omega) (by simp; omega)]
      have h17 : 17 - r.length = (17 - (r.length + 1)) + 1 := by omega
      rw [h17, List.replicate_succ]
      simp

theorem padRow_closed (loc : String) (r : List Cell) (h : r.length ≤ 17) :
    padRow loc r = r ++ List.replicate (17 - r.length) (Cell.s "") ++ [Cell.s loc] :=
  padLoop_closed loc targetHeader.length r h (by rw [targetHeader_len]; omega)

/-- C1 counterexample: the claim prescribes filtering by the prefix
`"{c}_INV"`, but the code filters by the bare counter and then searches
the pattern anywhere in the value.  For the snapshot
`["MAINMAIN_INV99"]` and counter `"MAIN"` the code produces
`"MAIN_INV100"`, while the claim's formula (embodied by
`specNextInvoice`) yields `"MAIN_INV01"`: the claim is false at this
input. -/
theorem claim1_counterexample :
    invoiceNoE "MAIN" ["MAINMAIN_INV99"] = Except.ok "MAIN_INV100" ∧
    specNextInvoice "MAIN" ["MAINMAIN_INV99"] = "MAIN_INV01" ∧
    ("MAIN_INV100" : String) ≠ "MAIN_INV01" :=
  ⟨rfl, rfl, by decide⟩

/-- C1 amended: for every non-empty uppercase counter `c`, the generated
invoice number is `"{c}_INV{seq}"` where `seq` is one greater than the
maximum numeric suffix obtained by searching the pattern
`"{c}_INV(\d+)"` (leftmost match) inside each snapshot row whose
invoice-number field starts with the bare counter `c` (maximum taken as 0
when no row starts with `c`), zero-padded to a minimum of 2 digits —
except that when at least one row starts with `c` but no such row
contains a pattern match, the computation fails (`ValueError` from
`int(NaN)`) instead of producing a number. -/
theorem claim1_amended (c : String) (snap : List String) (hc : c ≠ "")
    (hup : ∀ ch ∈ c.data, ch.isUpper) :
    ((snap.filter (fun r => pyStartsWith r c) ≠ [] ∧
        (snap.filter (fun r => pyStartsWith r c)).filterMap (extractSuffix c) = []) →
      invoiceNoE c snap = Except.error ()) ∧
    ((snap.filter (fun r => pyStartsWith r c) = [] ∨
        (snap.filter (fun r => pyStartsWith r c)).filterMap (extractSuffix c) ≠ []) →
      invoiceNoE c snap = Except.ok (c ++ "_INV" ++
        padTwo (((snap.filter (fun r => pyStartsWith r c)).filterMap
          (extractSuffix c)).foldl max 0 + 1))) := by
  by_cases hsnap : snap = []
  · subst hsnap
    refine ⟨fun h => absurd h.1 (by simp), fun h => ?_⟩
    simp [invoiceNoE, invNumericE, hc, Except.map, padTwo]
  · constructor
    · rintro ⟨hne, hparse⟩
      simp only [invoiceNoE, invNumericE]
      rw [if_pos ⟨hc, hsnap⟩, if_pos hne, hparse]
      rfl
    · intro h
      rcases h with hemp | hne
      · simp only [invoiceNoE, invNumericE]
        rw [if_pos ⟨hc, hsnap⟩, if_neg (fun hn => hn hemp), hemp]
        simp [hc, Except.map]
      · have hfil : snap.filter (fun r => pyStartsWith r c) ≠ [] := by
          intro h0
          rw [h0] at hne
          exact hne rfl
        simp only [invoiceNoE, invNumericE]
        rw [if_pos ⟨hc, hsnap⟩, if_pos hfil, max?_eq_some_foldl _ hne]
        simp [hc, Except.map]

/-- C1 witness: the amended statement applied to the claim's own example
snapshot, yielding `"MAIN_INV03"` for counter `"MAIN"`. -/
theorem claim1_witness :
    ("MAIN" : String) ≠ "" ∧ (∀ ch ∈ ("MAIN" : String).data, ch.isUpper) ∧
    invoiceNoE "MAIN" ["MAIN_INV01", "MAIN_INV02", "OTHER_INV05"]
      = Except.ok "MAIN_INV03" :=
  ⟨by decide, by decide,
    ((claim1_amended "MAIN" ["MAIN_INV01", "MAIN_INV02", "OTHER_INV05"]
        (by decide) (by decide)).2 (by decide)).trans (by rfl)⟩

/-- C7: the claim says malformed invoice-number strings never cause an
error and the numbering computation succeeds for every snapshot.  The
code contradicts this at the failing input below: with at least one row
starting with the counter but no row matching the pattern, the extracted
series is empty after `dropna()`, `.max()` is NaN, and `int(last)` at
source line 296 raises `ValueError`.  The per-row dropna and the
`if not df_counter.empty` default show the intended behaviour is the
claim's; the emptiness test is simply performed before extraction
instead of after, so this is a code bug. -/
theorem claim7_numbering_error :
    invoiceNoE "MAIN" ["MAIN_INVX"] = Except.error () ∧
    invNumericE "MAIN" ["MAIN_INVX"] = Except.error () :=
  ⟨rfl, rfl⟩

/-- C10: when the billing counter is the empty string, the guard at
source line 287 is false, so for every snapshot the sequence stays at its
default 1 and the conditional expression at line 297 produces the empty
string (not `"_INV01"`). -/
theorem claim10_empty_counter (snapshot : List String) :
    invoiceNoE "" snapshot = Except.ok "" ∧
    invNumericE "" snapshot = Except.ok 1 :=
  ⟨rfl, rfl⟩

/-- C2: for every line item with `unitPrice ≥ 0`, `quantity ≥ 1` and
`discountPercent ∈ [0,100]`, the per-line computation of source lines
316-317 yields `lineTotal = unitPrice * quantity`,
`lineFinalTotal = lineTotal * (1 - discountPercent/100)` and
`discountValue = lineTotal - lineFinalTotal` (line 425); consequently
`lineFinalTotal ≤ lineTotal`, with equality at 0% discount and
`lineFinalTotal = 0` at 100% discount. -/
theorem claim2_line_item_calc (i : Nat) (name : String) (price : ℚ) (qty : ℤ)
    (d : ℚ) (hp : 0 ≤ price) (hq : 1 ≤ qty) (hd0 : 0 ≤ d) (hd1 : d ≤ 100) :
    (mkItem i name price qty d).total = price * (qty : ℚ) ∧
    (mkItem i name price qty d).final_total
      = (mkItem i name price qty d).total * (1 - d / 100) ∧
    lineDiscountValue (mkItem i name price qty d)
      = (mkItem i name price qty d).total - (mkItem i name price qty d).final_total ∧
    (mkItem i name price qty d).final_total ≤ (mkItem i name price qty d).total ∧
    (d = 0 → (mkItem i name price qty d).final_total = (mkItem i name price qty d).total) ∧
    (d = 100 → (mkItem i name price qty d).final_total = 0) := by
  have hq1 : (1 : ℚ) ≤ (qty : ℚ) := by exact_mod_cast hq
  have htot : 0 ≤ price * (qty : ℚ) := by nlinarith
  refine ⟨rfl, rfl, rfl, ?_, ?_, ?_⟩
  · show price * (qty : ℚ) * (1 - d / 100) ≤ price * (qty : ℚ)
    nlinarith
  · intro h
    show price * (qty : ℚ) * (1 - d / 100) = price * (qty : ℚ)
    rw [h]
    ring
  · intro h
    show price * (qty : ℚ) * (1 - d / 100) = 0
    rw [h]
    ring

/-- C2 witness: the line-item computation at price 100, quantity 2 and
10% discount. -/
theorem claim2_witness :
    ((0 : ℚ) ≤ 100 ∧ (1 : ℤ) ≤ 2 ∧ (0 : ℚ) ≤ 10 ∧ (10 : ℚ) ≤ 100) ∧
    (mkItem 0 "Shawl" 100 2 10).total = 100 * ((2 : ℤ) : ℚ) ∧
    (mkItem 0 "Shawl" 100 2 10).final_total
      = (mkItem 0 "Shawl" 100 2 10).total * (1 - 10 / 100) ∧
    (mkItem 0 "Shawl" 100 2 10).final_total ≤ (mkItem 0 "Shawl" 100 2 10).total :=
  ⟨⟨by decide, by decide, by decide, by decide⟩,
    (claim2_line_item_calc 0 "Shawl" 100 2 10
      (by decide) (by decide) (by decide) (by decide)).1,
    (claim2_line_item_calc 0 "Shawl" 100 2 10
      (by decide) (by decide) (by decide) (by decide)).2.1,
    (claim2_line_item_calc 0 "Shawl" 100 2 10
      (by decide) (by decide) (by decide) (by decide)).2.2.2.1⟩

/-- C3: for every list of line items and every GST percentage, the
invoice-level totals of source lines 330-332 (and 426-428) satisfy
`subtotalAfterDiscount = Σ lineFinalTotal`,
`gstAmount = subtotalAfterDiscount * gstPercent/100` and
`grandTotal = subtotalAfterDiscount + gstAmount`, with `gstAmount = 0`
whenever `gstPercent = 0`. -/
theorem claim3_invoice_totals (items : List Item) (gstPercent : ℚ) :
    subtotalAfterDiscount items = (items.map Item.final_total).sum ∧
    gstAmountOf items gstPercent = subtotalAfterDiscount items * (gstPercent / 100) ∧
    grandTotalInclGst items gstPercent
      = subtotalAfterDiscount items + gstAmountOf items gstPercent ∧
    (gstPercent = 0 → gstAmountOf items gstPercent = 0) :=
  ⟨rfl, rfl, rfl, fun h => by simp [gstAmountOf, h]⟩

/-- C3 witness: zero GST yields a zero GST amount on an empty item list. -/
theorem claim3_witness :
    (0 : ℚ) = 0 ∧ gstAmountOf [] 0 = 0 :=
  ⟨rfl, (claim3_invoice_totals [] 0).2.2.2 rfl⟩

/-- C4: for every invoice, the row builder of source lines 456-478
produces exactly one ledger row per line item; every row carries the same
invoice-level aggregates (`Final Total (Invoice)` at index 12, `GST%` at
13, `GST Amt` at 14) and the same header fields, differing only in the
per-item fields; after the padding of lines 246-255 every row carries the
same location at the `Location` column, and any row shorter than the
18-column target header is padded to header length with the location at
the `Location` position and empty strings at the other missing trailing
positions. -/
theorem claim4_record_builder (stall inv date ph pm art corp loc : String)
    (grand gstP gstA : ℚ) (items : List Item) :
    (buildRows stall inv date ph pm art corp grand gstP gstA items).length
      = items.length ∧
    (∀ r ∈ buildRows stall inv date ph pm art corp grand gstP gstA items,
      r[0]? = some (Cell.s stall) ∧ r[1]? = some (Cell.s inv) ∧
      r[12]? = some (Cell.n grand) ∧ r[13]? = some (Cell.n gstP) ∧
      r[14]? = some (Cell.n gstA) ∧ r[15]? = some (Cell.s "Active") ∧
      r[16]? = some (Cell.s corp)) ∧
    (∀ r ∈ rowsWithLocation loc
        (buildRows stall inv date ph pm art corp grand gstP gstA items),
      r[targetHeader.indexOf "Location"]? = some (Cell.s loc) ∧
      r.length = targetHeader.length) ∧
    (∀ r : List Cell, r.length < targetHeader.length →
      padRow loc r = r ++ List.replicate (17 - r.length) (Cell.s "") ++ [Cell.s loc]) := by
  refine ⟨by simp [buildRows], ?_, ?_, ?_⟩
  · intro r hr
    simp only [buildRows] at hr
    obtain ⟨it, _, rfl⟩ := List.mem_map.mp hr
    exact ⟨rfl, rfl, rfl, rfl, rfl, rfl, rfl⟩
  · intro r hr
    simp only [rowsWithLocation, buildRows] at hr
    obtain ⟨r0, hr0, rfl⟩ := List.mem_map.mp hr
    obtain ⟨it, _, rfl⟩ := List.mem_map.mp hr0
    exact ⟨rfl, rfl⟩
  · intro r h
    exact padRow_closed loc r (by rw [targetHeader_len] at h; omega)

/-- Shared concrete invoice data for witnesses. -/
def demoCfg : List (String × Option String) := [("rakesh", some "Delhi")]

/-- Location resolved for the demo user. -/
def demoLoc : String := resolveLocation demoCfg "rakesh"

/-- Concrete padded output rows of a first invoice. -/
def demoRows1 : List (List Cell) :=
  rowsWithLocation demoLoc
    (buildRows "S1" "MAIN_INV01" "01-01-2026" "9876501234" "Cash" "ART1"
      "NBCFDC" (271.4 : ℚ) 18 (41.4 : ℚ) [mkItem 0 "Shawl" 100 2 10])

/-- Concrete padded output rows of a second invoice with different data. -/
def demoRows2 : List (List Cell) :=
  rowsWithLocation demoLoc
    (buildRows "S2" "MAIN_INV02" "02-01-2026" "9876505678" "UPI" "ART2"
      "NSFDC" (50 : ℚ) 0 0 [mkItem 0 "Scarf" 50 1 0])

/-- C4 witness: the builder and padding applied to a concrete one-item
invoice. -/
theorem claim4_witness :
    (buildRows "S1" "MAIN_INV01" "01-01-2026" "9876501234" "Cash" "ART1"
        "NBCFDC" (271.4 : ℚ) 18 (41.4 : ℚ) [mkItem 0 "Shawl" 100 2 10]).headD []
      ∈ buildRows "S1" "MAIN_INV01" "01-01-2026" "9876501234" "Cash" "ART1"
        "NBCFDC" (271.4 : ℚ) 18 (41.4 : ℚ) [mkItem 0 "Shawl" 100 2 10] ∧
    demoRows1.headD [] ∈ demoRows1 ∧
    (([] : List Cell)).length < targetHeader.length ∧
    ((buildRows "S1" "MAIN_INV01" "01-01-2026" "9876501234" "Cash" "ART1"
        "NBCFDC" (271.4 : ℚ) 18 (41.4 : ℚ) [mkItem 0 "Shawl" 100 2 10]).headD [])[12]?
      = some (Cell.n 271.4) ∧
    (demoRows1.headD [])[targetHeader.indexOf "Location"]? = some (Cell.s demoLoc) ∧
    padRow demoLoc [] = List.replicate 17 (Cell.s "") ++ [Cell.s demoLoc] := by
  have hm1 : (buildRows "S1" "MAIN_INV01" "01-01-2026" "9876501234" "Cash" "ART1"
      "NBCFDC" (271.4 : ℚ) 18 (41.4 : ℚ) [mkItem 0 "Shawl" 100 2 10]).headD []
      ∈ buildRows "S1" "MAIN_INV01" "01-01-2026" "9876501234" "Cash" "ART1"
      "NBCFDC" (271.4 : ℚ) 18 (41.4 : ℚ) [mkItem 0 "Shawl" 100 2 10] := by
    simp [buildRows]
  have hm2 : demoRows1.headD [] ∈ demoRows1 := by
    simp [demoRows1, rowsWithLocation, buildRows]
  refine ⟨hm1, hm2, by decide, ?_, ?_, ?_⟩
  · exact ((claim4_record_builder "S1" "MAIN_INV01" "01-01-2026" "9876501234"
      "Cash" "ART1" "NBCFDC" demoLoc (271.4 : ℚ) 18 (41.4 : ℚ)
      [mkItem 0 "Shawl" 100 2 10]).2.1 _ hm1).2.2.1
  · exact ((claim4_record_builder "S1" "MAIN_INV01" "01-01-2026" "9876501234"
      "Cash" "ART1" "NBCFDC" demoLoc (271.4 : ℚ) 18 (41.4 : ℚ)
      [mkItem 0 "Shawl" 100 2 10]).2.2.1 _ hm2).1
  · exact (claim4_record_builder "S1" "MAIN_INV01" "01-01-2026" "9876501234"
      "Cash" "ART1" "NBCFDC" demoLoc (271.4 : ℚ) 18 (41.4 : ℚ)
      [mkItem 0 "Shawl" 100 2 10]).2.2.2 [] (by decide)

/-- C5: the status mutation of source lines 505-509/514-518 sets the
Status cell of every row whose invoice-number column equals the selected
invoice, and leaves every other cell unchanged: all cells of non-matching
rows, and all non-Status cells of matching rows. -/
theorem claim5_status_frame (rows : List (List String)) (inv s : String)
    (i j : Nat) (hi : i < rows.length) :
    (setStatus inv s rows).length = rows.length ∧
    ((rows.getD i []).getD invoiceCol "" ≠ inv →
      (setStatus inv s rows).getD i [] = rows.getD i []) ∧
    ((rows.getD i []).getD invoiceCol "" = inv →
      (setStatus inv s rows).getD i [] = (rows.getD i []).set statusCol s) ∧
    (j ≠ statusCol →
      ((rows.getD i []).set statusCol s)[j]? = (rows.getD i [])[j]?) ∧
    ((rows.getD i []).getD invoiceCol "" = inv →
      statusCol < (rows.getD i []).length →
      ((setStatus inv s rows).getD i [])[statusCol]? = some s) := by
  have hmap : (setStatus inv s rows).getD i []
      = (if (rows.getD i []).getD invoiceCol "" = inv
         then (rows.getD i []).set statusCol s else rows.getD i []) := by
    simp [setStatus, List.getD_eq_getElem?_getD, List.getElem?_map,
      List.getElem?_eq_getElem hi]
  refine ⟨by simp [setStatus], ?_, ?_, ?_, ?_⟩
  · intro h
    rw [hmap, if_neg h]
  · intro h
    rw [hmap, if_pos h]
  · intro hj
    exact List.getElem?_set_ne (Ne.symm hj)
  · intro h hlt
    rw [hmap, if_pos h]
    exact List.getElem?_set_self hlt

/-- C5 witness: one matching 18-cell row; its Status cell becomes the new
status and index 0 is a frame position. -/
theorem claim5_witness :
    (0 : Nat) < [targetHeader].length ∧
    ([targetHeader].getD 0 []).getD invoiceCol "" = "Invoice No" ∧
    (setStatus "Invoice No" "Cancelled" [targetHeader]).getD 0 []
      = targetHeader.set statusCol "Cancelled" ∧
    ((setStatus "Invoice No" "Cancelled" [targetHeader]).getD 0 [])[statusCol]?
      = some "Cancelled" :=
  ⟨by decide, by decide,
    (claim5_status_frame [targetHeader] "Invoice No" "Cancelled" 0 0
      (by decide)).2.2.1 (by decide),
    (claim5_status_frame [targetHeader] "Invoice No" "Cancelled" 0 0
      (by decide)).2.2.2.2 (by decide) (by decide)⟩

/-- C6: setting an invoice's status is idempotent: for a status in
{Active, Cancelled}, applying the mutation twice equals applying it once
(the model is total, so the second application raises no error), and
every matching row of the result carries the new status. -/
theorem claim6_status_idempotent (rows : List (List String)) (inv s : String)
    (hs : s = "Active" ∨ s = "Cancelled") :
    setStatus inv s (setStatus inv s rows) = setStatus inv s rows ∧
    (∀ r ∈ setStatus inv s (setStatus inv s rows),
      r.getD invoiceCol "" = inv → statusCol < r.length →
      r[statusCol]? = some s) := by
  have hcols : statusCol ≠ invoiceCol := by decide
  have idem : ∀ r : List String,
      (if (if r.getD invoiceCol "" = inv then r.set statusCol s else r).getD
            invoiceCol "" = inv
       then (if r.getD invoiceCol "" = inv then r.set statusCol s else r).set
            statusCol s
       else (if r.getD invoiceCol "" = inv then r.set statusCol s else r))
      = (if r.getD invoiceCol "" = inv then r.set statusCol s else r) := by
    intro r
    by_cases h : r.getD invoiceCol "" = inv
    · have hinv : (r.set statusCol s).getD invoiceCol "" = inv := by
        rw [List.getD_eq_getElem?_getD, List.getElem?_set_ne hcols,
          ← List.getD_eq_getElem?_getD]
        exact h
      rw [if_pos h, if_pos hinv, List.set_set]
    · rw [if_neg h, if_neg h]
  have heq : setStatus inv s (setStatus inv s rows) = setStatus inv s rows := by
    simp only [setStatus, List.map_map]
    exact List.map_congr_left fun r _ => idem r
  refine ⟨heq, ?_⟩
  intro r hr hmatch hlt
  rw [heq] at hr
  simp only [setStatus] at hr
  obtain ⟨r0, _, rfl⟩ := List.mem_map.mp hr
  by_cases h0 : r0.getD invoiceCol "" = inv
  · rw [if_pos h0] at hlt ⊢
    rw [List.length_set] at hlt
    exact List.getElem?_set_self hlt
  · rw [if_neg h0] at hmatch
    exact absurd hmatch h0

/-- C6 witness: cancelling twice equals cancelling once on a concrete
ledger. -/
theorem claim6_witness :
    (("Cancelled" : String) = "Active" ∨ ("Cancelled" : String) = "Cancelled") ∧
    setStatus "Invoice No" "Cancelled"
        (setStatus "Invoice No" "Cancelled" [targetHeader])
      = setStatus "Invoice No" "Cancelled" [targetHeader] :=
  ⟨Or.inr rfl,
    (claim6_status_idempotent [targetHeader] "Invoice No" "Cancelled"
      (Or.inr rfl)).1⟩

theorem normalizeHeader_target : normalizeHeader targetHeader = targetHeader := rfl

/-- C8 counterexample: a pre-existing header whose first cell carries a
trailing space normalizes to the target, so source line 236 leaves row 1
unchanged; after the append, row 1 does not equal the 18-column target
header exactly, refuting the claim as stated. -/
theorem claim8_counterexample :
    normalizeHeader ("Stall No " :: targetHeader.drop 1) = targetHeader ∧
    (ensureHeaderAppend [("Stall No " :: targetHeader.drop 1)] [["x"]]).headD []
      = "Stall No " :: targetHeader.drop 1 ∧
    ("Stall No " :: targetHeader.drop 1) ≠ targetHeader :=
  ⟨by decide, by decide, by decide⟩

/-- C8 amended: after every append, row 1 equals the target header up to
per-cell whitespace stripping and blank-cell removal (not exactly):
when the previous row 1 normalized to empty, the exact target header is
inserted; when the normalization differed from the target, the first 18
cells of row 1 are overwritten with the target (cells beyond column 18
are untouched by the range update); when it already equalled the target,
row 1 is left unchanged.  Consequently, whenever the previous row 1 had
at most 18 cells, the new row 1 normalizes to the target header. -/
theorem claim8_amended (sheet newRows : List (List String)) :
    (normalizeHeader (sheet.headD []) = [] →
      (ensureHeaderAppend sheet newRows).headD [] = targetHeader) ∧
    (normalizeHeader (sheet.headD []) ≠ [] ∧
        normalizeHeader (sheet.headD []) ≠ targetHeader →
      (ensureHeaderAppend sheet newRows).headD []
        = targetHeader ++ (sheet.headD []).drop targetHeader.length) ∧
    (normalizeHeader (sheet.headD []) = targetHeader →
      (ensureHeaderAppend sheet newRows).headD [] = sheet.headD []) ∧
    ((sheet.headD []).length ≤ targetHeader.length →
      normalizeHeader ((ensureHeaderAppend sheet newRows).headD [])
        = targetHeader) := by
  cases sheet with
  | nil =>
    refine ⟨fun _ => ?_, fun h => absurd rfl h.1, fun h => ?_, fun _ => ?_⟩
    · simp [ensureHeaderAppend, normalizeHeader]
    · exact absurd h.symm (by decide)
    · have hred : (ensureHeaderAppend ([] : List (List String)) newRows).headD []
          = targetHeader := by
        simp [ensureHeaderAppend, normalizeHeader]
      rw [hred]
      exact normalizeHeader_target
  | cons r rest =>
    by_cases h1 : normalizeHeader r = []
    · have hred : (ensureHeaderAppend (r :: rest) newRows).headD [] = targetHeader := by
        simp only [ensureHeaderAppend, List.headD_cons]
        rw [if_pos h1]
        rfl
      refine ⟨fun _ => hred, fun h => absurd h1 h.1, fun h => ?_, fun _ => ?_⟩
      · rw [List.headD_cons] at h
        rw [h] at h1
        exact absurd h1 (by decide)
      · rw [hred]
        exact normalizeHeader_target
    · by_cases h2 : normalizeHeader r = targetHeader
      · have hred : (ensureHeaderAppend (r :: rest) newRows).headD [] = r := by
          simp only [ensureHeaderAppend, List.headD_cons]
          rw [if_neg h1, if_neg (fun hn => hn h2)]
          rfl
        refine ⟨fun h => absurd h h1, fun h => absurd h2 h.2, fun _ => hred, fun _ => ?_⟩
        · rw [hred]
          exact h2
      · have hred : (ensureHeaderAppend (r :: rest) newRows).headD []
            = targetHeader ++ r.drop targetHeader.length := by
          simp only [ensureHeaderAppend, List.headD_cons]
          rw [if_neg h1, if_pos h2]
          rfl
        refine ⟨fun h => absurd h h1, fun _ => hred, fun h => absurd h h2, fun hlen => ?_⟩
        rw [hred, List.drop_eq_nil_of_le (by simpa using hlen), List.append_nil]
        exact normalizeHeader_target

/-- C8 witness: appending to an empty sheet inserts the target header,
which normalizes to itself. -/
theorem claim8_witness :
    ((([] : List (List String)).headD []).length ≤ targetHeader.length) ∧
    normalizeHeader ((ensureHeaderAppend [] [["x"]]).headD []) = targetHeader :=
  ⟨by decide, (claim8_amended [] [["x"]]).2.2.2 (by decide)⟩

theorem padded_location_cell (loc stall inv date ph pm art corp : String)
    (grand gstP gstA : ℚ) (items : List Item) (r : List Cell)
    (hr : r ∈ rowsWithLocation loc
      (buildRows stall inv date ph pm art corp grand gstP gstA items)) :
    r[targetHeader.indexOf "Location"]? = some (Cell.s loc) := by
  simp only [rowsWithLocation, buildRows] at hr
  obtain ⟨r0, hr0, rfl⟩ := List.mem_map.mp hr
  obtain ⟨it, _, rfl⟩ := List.mem_map.mp hr0
  rfl

/-- C9: the Location value written to the ledger depends only on the
authenticated session's username and the credential config, never on the
caller-supplied invoice data: rows of two append invocations with the
same user and config but arbitrarily different header fields, items and
totals carry the identical Location cell, namely the location resolved
from the config at source lines 240-243. -/
theorem claim9_location_noninterference
    (cfg : List (String × Option String)) (user : String)
    (stall1 inv1 date1 ph1 pm1 art1 corp1 : String)
    (grand1 gstP1 gstA1 : ℚ) (items1 : List Item)
    (stall2 inv2 date2 ph2 pm2 art2 corp2 : String)
    (grand2 gstP2 gstA2 : ℚ) (items2 : List Item) (r1 r2 : List Cell)
    (h1 : r1 ∈ rowsWithLocation (resolveLocation cfg user)
      (buildRows stall1 inv1 date1 ph1 pm1 art1 corp1 grand1 gstP1 gstA1 items1))
    (h2 : r2 ∈ rowsWithLocation (resolveLocation cfg user)
      (buildRows stall2 inv2 date2 ph2 pm2 art2 corp2 grand2 gstP2 gstA2 items2)) :
    r1[targetHeader.indexOf "Location"]? = some (Cell.s (resolveLocation cfg user)) ∧
    r2[targetHeader.indexOf "Location"]? = some (Cell.s (resolveLocation cfg user)) ∧
    r1[targetHeader.indexOf "Location"]? = r2[targetHeader.indexOf "Location"]? := by
  have e1 := padded_location_cell (resolveLocation cfg user) stall1 inv1 date1
    ph1 pm1 art1 corp1 grand1 gstP1 gstA1 items1 r1 h1
  have e2 := padded_location_cell (resolveLocation cfg user) stall2 inv2 date2
    ph2 pm2 art2 corp2 grand2 gstP2 gstA2 items2 r2 h2
  exact ⟨e1, e2, e1.trans e2.symm⟩

/-- C9 witness: two concrete invocations for the same user with different
invoice data produce rows with the identical Location cell. -/
theorem claim9_witness :
    demoRows1.headD [] ∈ demoRows1 ∧ demoRows2.headD [] ∈ demoRows2 ∧
    (demoRows1.headD [])[targetHeader.indexOf "Location"]?
      = (demoRows2.headD [])[targetHeader.indexOf "Location"]? := by
  have hm1 : demoRows1.headD [] ∈ demoRows1 := by
    simp [demoRows1, rowsWithLocation, buildRows]
  have hm2 : demoRows2.headD [] ∈ demoRows2 := by
    simp [demoRows2, rowsWithLocation, buildRows]
  exact ⟨hm1, hm2,
    (claim9_location_noninterference demoCfg "rakesh"
      "S1" "MAIN_INV01" "01-01-2026" "9876501234" "Cash" "ART1" "NBCFDC"
      (271.4 : ℚ) 18 (41.4 : ℚ) [mkItem 0 "Shawl" 100 2 10]
      "S2" "MAIN_INV02" "02-01-2026" "9876505678" "UPI" "ART2" "NSFDC"
      (50 : ℚ) 0 0 [mkItem 0 "Scarf" 50 1 0]
      (demoRows1.headD []) (demoRows2.headD []) hm1 hm2).2.2⟩
